import Mathlib

/-!
Verification of the Transfa payment-orchestration services against their
natural-language specification.  Each Go handler that the claims touch is
shallowly embedded as a pure Lean function over explicit state; remote calls
(BaaS, broker publish) are recorded in an effect trace and their outcomes are
supplied as parameters.  Components whose implementation is absent from the
repository (the transaction-service routing engine, the money-drop claim
store procedure and the scheduler's expiry sweep, which exist only as README
and design-doc declarations) are modelled from the spec and marked as such.
-/

namespace MoneyDrop

/-- Status column of the money_drops table:
status IN ('active', 'completed', 'expired'). -/
inductive DropStatus
  | active
  | completed
  | expired
deriving DecidableEq, Repr

/-- Row of the money_drops table (0000_initial_schema.sql lines 205-217),
amounts in minor units (kobo), timestamps as abstract ticks. -/
structure Drop where
  totalAmount : Int
  amountPerClaim : Int
  totalClaimsAllowed : Nat
  claimsMadeCount : Nat
  status : DropStatus
  expiryTimestamp : Nat
deriving Repr

/-- State visible to one drop's claim protocol: the drop row, the committed
money_drop_claims rows for that drop (claimant user ids, newest first), and
claimant wallet balances. -/
structure DropState where
  drop : Drop
  claims : List Nat
  balances : Nat → Int

/-- Modelled from the spec: the money-drop claim procedure (spec section 4.3,
design doc section 9.2) is absent from src (the transaction-service store is
not in the repository); this is one atomic claim attempt as the spec words it.
Under the exclusive per-drop row lock it rejects if the drop is not active,
now() is past expiry_timestamp, the claim count has reached
total_claims_allowed, or a claim row for this claimant already exists;
otherwise it inserts the claim row, increments claims_made_count, credits the
claimant by amount_per_claim, and completes the drop when the count reaches
the allowance.  A rejection leaves the state untouched. -/
def claimAttempt (now : Nat) (claimant : Nat) (s : DropState) : DropState :=
  if s.drop.status = DropStatus.active ∧ now ≤ s.drop.expiryTimestamp ∧
      s.drop.claimsMadeCount < s.drop.totalClaimsAllowed ∧ claimant ∉ s.claims then
    { drop :=
        { s.drop with
          claimsMadeCount := s.drop.claimsMadeCount + 1
          status :=
            if s.drop.claimsMadeCount + 1 = s.drop.totalClaimsAllowed then
              DropStatus.completed
            else s.drop.status }
      claims := claimant :: s.claims
      balances := fun u =>
        if u = claimant then s.balances u + s.drop.amountPerClaim else s.balances u }
  else s

/-- A sequence of claim attempts, each (now, claimant), run in order.  The
per-drop row lock serializes concurrent attempts, so every concurrent
execution is equal to some sequential order, and quantifying over all lists
covers all interleavings. -/
def runClaims (attempts : List (Nat × Nat)) (s : DropState) : DropState :=
  match attempts with
  | [] => s
  | (now, claimant) :: rest => runClaims rest (claimAttempt now claimant s)

/-- The claim-protocol invariant: the committed claim rows agree with
claims_made_count, the count is within total_claims_allowed, and no claimant
appears twice. -/
def DropInv (s : DropState) : Prop :=
  s.claims.length = s.drop.claimsMadeCount ∧
  s.drop.claimsMadeCount ≤ s.drop.totalClaimsAllowed ∧
  s.claims.Nodup

theorem claimAttempt_preserves_inv (now claimant : Nat) (s : DropState)
    (h : DropInv s) : DropInv (claimAttempt now claimant s) := by
  obtain ⟨hlen, hle, hnd⟩ := h
  unfold claimAttempt
  split
  case isTrue hc =>
    obtain ⟨-, -, hlt, hnotin⟩ := hc
    refine ⟨?_, ?_, ?_⟩
    · simpa using hlen
    · exact Nat.succ_le_of_lt hlt
    · exact List.nodup_cons.mpr ⟨hnotin, hnd⟩
  case isFalse => exact ⟨hlen, hle, hnd⟩

theorem claimAttempt_allowed_const (now claimant : Nat) (s : DropState) :
    (claimAttempt now claimant s).drop.totalClaimsAllowed =
      s.drop.totalClaimsAllowed := by
  unfold claimAttempt
  split <;> rfl

theorem runClaims_preserves_inv (attempts : List (Nat × Nat)) (s : DropState)
    (h : DropInv s) : DropInv (runClaims attempts s) := by
  induction attempts generalizing s with
  | nil => exact h
  | cons a rest ih =>
    exact ih (claimAttempt a.1 a.2 s) (claimAttempt_preserves_inv a.1 a.2 s h)

theorem runClaims_allowed_const (attempts : List (Nat × Nat)) (s : DropState) :
    (runClaims attempts s).drop.totalClaimsAllowed =
      s.drop.totalClaimsAllowed := by
  induction attempts generalizing s with
  | nil => rfl
  | cons a rest ih =>
    calc (runClaims rest (claimAttempt a.1 a.2 s)).drop.totalClaimsAllowed
        = (claimAttempt a.1 a.2 s).drop.totalClaimsAllowed := ih _
      _ = s.drop.totalClaimsAllowed := claimAttempt_allowed_const a.1 a.2 s

end MoneyDrop

/-- C1: For every MoneyDrop and every sequence of claim attempts (concurrent
attempts are serialized by the exclusive per-drop row lock, so every
interleaving equals some attempt list), the number of committed
MoneyDropClaim rows never exceeds the drop's original total_claims_allowed,
and no claimant holds two committed claims. -/
theorem C1_moneyDrop_claims_bounded_and_unique
    (attempts : List (Nat × Nat)) (s : MoneyDrop.DropState)
    (h : MoneyDrop.DropInv s) :
    (MoneyDrop.runClaims attempts s).claims.length ≤ s.drop.totalClaimsAllowed ∧
    (MoneyDrop.runClaims attempts s).claims.Nodup := by
  obtain ⟨hlen, hle, hnd⟩ := MoneyDrop.runClaims_preserves_inv attempts s h
  constructor
  · calc (MoneyDrop.runClaims attempts s).claims.length
        = (MoneyDrop.runClaims attempts s).drop.claimsMadeCount := hlen
      _ ≤ (MoneyDrop.runClaims attempts s).drop.totalClaimsAllowed := hle
      _ = s.drop.totalClaimsAllowed := MoneyDrop.runClaims_allowed_const attempts s
  · exact hnd

/-- Witness for C1: a fresh two-claim drop, four attempts among which a
duplicate claimant and one attempt past capacity. -/
theorem C1_moneyDrop_claims_bounded_and_unique_witness :
    MoneyDrop.DropInv
      { drop :=
          { totalAmount := 1000, amountPerClaim := 200, totalClaimsAllowed := 2
            claimsMadeCount := 0, status := MoneyDrop.DropStatus.active
            expiryTimestamp := 100 }
        claims := [], balances := fun _ => 0 } ∧
    ((MoneyDrop.runClaims [(1, 7), (2, 7), (3, 8), (4, 9)]
        { drop :=
            { totalAmount := 1000, amountPerClaim := 200, totalClaimsAllowed := 2
              claimsMadeCount := 0, status := MoneyDrop.DropStatus.active
              expiryTimestamp := 100 }
          claims := [], balances := fun _ => 0 }).claims.length ≤ 2 ∧
      (MoneyDrop.runClaims [(1, 7), (2, 7), (3, 8), (4, 9)]
        { drop :=
            { totalAmount := 1000, amountPerClaim := 200, totalClaimsAllowed := 2
              claimsMadeCount := 0, status := MoneyDrop.DropStatus.active
              expiryTimestamp := 100 }
          claims := [], balances := fun _ => 0 }).claims.Nodup) :=
  ⟨⟨rfl, by decide, by decide⟩,
    C1_moneyDrop_claims_bounded_and_unique [(1, 7), (2, 7), (3, 8), (4, 9)] _
      ⟨rfl, by decide, by decide⟩⟩

namespace Routing

/-- Status column of the subscriptions table:
status IN ('free', 'active', 'past_due', 'cancelled'). -/
inductive SubStatus
  | free
  | active
  | past_due
  | cancelled
deriving DecidableEq, Repr

/-- Recipient Subscription snapshot as the routing engine reads it:
status and period_transfers_used (the monthly_external_transfers_used
column of the subscriptions table). -/
structure Subscription where
  status : SubStatus
  periodTransfersUsed : Nat
deriving DecidableEq, Repr

/-- The free-tier monthly external-transfer allowance (spec: FREE_LIMIT = 5,
design doc section 9.1: monthly_external_transfers_used < 5). -/
def FREE_LIMIT : Nat := 5

/-- The transfer instruction the routing engine emits: an external (NIP)
transfer against a Beneficiary, or an internal (book) transfer against a
wallet Account. -/
inductive TransferRoute
  | external (beneficiaryId : Nat)
  | internal (accountId : Nat)
deriving DecidableEq, Repr

/-- Routing engine input snapshot: the recipient's subscription, their
default Beneficiary and their main-wallet Account. -/
structure RoutingInput where
  sub : Subscription
  defaultBeneficiaryId : Nat
  mainWalletAccountId : Nat
deriving DecidableEq, Repr

/-- Routing engine output: the chosen route, the value
period_transfers_used is directed to hold after the atomic increment (if
any), and whether a transfer.rerouted.internal event is to be emitted. -/
structure RoutingDecision where
  route : TransferRoute
  newPeriodTransfersUsed : Nat
  emitReroutedEvent : Bool
deriving DecidableEq, Repr

/-- Modelled from the spec: the transaction-service routing engine
(spec section 4.1, design doc section 9.1) is absent from src (the
transaction service ships only a domain file).  Eligibility is
status == active OR period_transfers_used < FREE_LIMIT; if eligible the
engine routes externally to the default Beneficiary and directs an
increment of period_transfers_used by one only when the subscription is the
free tier; otherwise it routes internally to the main wallet, leaves usage
unchanged and directs a transfer.rerouted.internal event. -/
def routeTransfer (inp : RoutingInput) : RoutingDecision :=
  if inp.sub.status = SubStatus.active ∨ inp.sub.periodTransfersUsed < FREE_LIMIT then
    { route := TransferRoute.external inp.defaultBeneficiaryId
      newPeriodTransfersUsed :=
        if inp.sub.status = SubStatus.free then inp.sub.periodTransfersUsed + 1
        else inp.sub.periodTransfersUsed
      emitReroutedEvent := false }
  else
    { route := TransferRoute.internal inp.mainWalletAccountId
      newPeriodTransfersUsed := inp.sub.periodTransfersUsed
      emitReroutedEvent := true }

end Routing

/-- C2: For a recipient subscription snapshot with status free: with
period_transfers_used strictly below the limit of 5 the engine emits an
external-transfer instruction against the default Beneficiary and directs
the usage counter to become exactly one more; at period_transfers_used = 5
it emits an internal-transfer instruction against the main wallet and the
usage counter is unchanged. -/
theorem C2_routing_free_tier (inp : Routing.RoutingInput)
    (hfree : inp.sub.status = Routing.SubStatus.free) :
    (inp.sub.periodTransfersUsed < 5 →
      (Routing.routeTransfer inp).route =
          Routing.TransferRoute.external inp.defaultBeneficiaryId ∧
      (Routing.routeTransfer inp).newPeriodTransfersUsed =
          inp.sub.periodTransfersUsed + 1) ∧
    (inp.sub.periodTransfersUsed = 5 →
      (Routing.routeTransfer inp).route =
          Routing.TransferRoute.internal inp.mainWalletAccountId ∧
      (Routing.routeTransfer inp).newPeriodTransfersUsed =
          inp.sub.periodTransfersUsed) := by
  constructor
  · intro hlt
    have helig : inp.sub.status = Routing.SubStatus.active ∨
        inp.sub.periodTransfersUsed < Routing.FREE_LIMIT := Or.inr hlt
    unfold Routing.routeTransfer
    rw [if_pos helig, if_pos hfree]
    exact ⟨rfl, rfl⟩
  · intro heq
    have hnelig : ¬(inp.sub.status = Routing.SubStatus.active ∨
        inp.sub.periodTransfersUsed < Routing.FREE_LIMIT) := by
      rintro (ha | hlt)
      · rw [hfree] at ha
        cases ha
      · rw [heq] at hlt
        exact absurd hlt (by decide)
    unfold Routing.routeTransfer
    rw [if_neg hnelig]
    exact ⟨rfl, rfl⟩

/-- Witness for C2: a free subscription at 4 of 5 used routes externally and
increments to 5; a free subscription at 5 used routes internally and stays
at 5. -/
theorem C2_routing_free_tier_witness :
    (({ sub := { status := Routing.SubStatus.free, periodTransfersUsed := 4 }
        defaultBeneficiaryId := 11
        mainWalletAccountId := 22 : Routing.RoutingInput }).sub.status =
          Routing.SubStatus.free ∧
      ((4 < 5 →
        (Routing.routeTransfer
          { sub := { status := Routing.SubStatus.free, periodTransfersUsed := 4 }
            defaultBeneficiaryId := 11, mainWalletAccountId := 22 }).route =
            Routing.TransferRoute.external 11 ∧
        (Routing.routeTransfer
          { sub := { status := Routing.SubStatus.free, periodTransfersUsed := 4 }
            defaultBeneficiaryId := 11, mainWalletAccountId := 22
          }).newPeriodTransfersUsed = 4 + 1))) ∧
    ((5 : Nat) = 5 →
      (Routing.routeTransfer
        { sub := { status := Routing.SubStatus.free, periodTransfersUsed := 5 }
          defaultBeneficiaryId := 11, mainWalletAccountId := 22 }).route =
          Routing.TransferRoute.internal 22 ∧
      (Routing.routeTransfer
        { sub := { status := Routing.SubStatus.free, periodTransfersUsed := 5 }
          defaultBeneficiaryId := 11, mainWalletAccountId := 22
        }).newPeriodTransfersUsed = 5) :=
  ⟨⟨rfl, (C2_routing_free_tier
      { sub := { status := Routing.SubStatus.free, periodTransfersUsed := 4 }
        defaultBeneficiaryId := 11, mainWalletAccountId := 22 } rfl).1⟩,
    (C2_routing_free_tier
      { sub := { status := Routing.SubStatus.free, periodTransfersUsed := 5 }
        defaultBeneficiaryId := 11, mainWalletAccountId := 22 } rfl).2⟩

namespace Sweep

/-- State the expiry sweep touches for one drop: the money_drops row and the
creator's wallet balance. -/
structure SweepState where
  drop : MoneyDrop.Drop
  creatorBalance : Int

/-- Modelled from the spec: the scheduler's expiry sweep (spec section 4.3;
the scheduler service in src is a health-check stub whose README declares
the job "Processing expired Money Drops and returning remaining funds to the
creator").  For a drop with status active and expiry_timestamp in the past
it atomically sets status expired and refunds
total_amount - claims_made_count * amount_per_claim to the creator's wallet;
any other drop is left untouched. -/
def sweepDrop (now : Nat) (s : SweepState) : SweepState :=
  if s.drop.status = MoneyDrop.DropStatus.active ∧ s.drop.expiryTimestamp < now then
    { drop := { s.drop with status := MoneyDrop.DropStatus.expired }
      creatorBalance :=
        s.creatorBalance +
          (s.drop.totalAmount - s.drop.claimsMadeCount * s.drop.amountPerClaim) }
  else s

end Sweep

/-- C8: A run of the expiry sweep over an active MoneyDrop whose
expiry_timestamp is in the past sets its status to expired and credits the
creator's wallet with exactly
total_amount - claims_made_count * amount_per_claim. -/
theorem C8_expiry_sweep_refund (now : Nat) (s : Sweep.SweepState)
    (hact : s.drop.status = MoneyDrop.DropStatus.active)
    (hexp : s.drop.expiryTimestamp < now) :
    (Sweep.sweepDrop now s).drop.status = MoneyDrop.DropStatus.expired ∧
    (Sweep.sweepDrop now s).creatorBalance =
      s.creatorBalance +
        (s.drop.totalAmount - s.drop.claimsMadeCount * s.drop.amountPerClaim) := by
  unfold Sweep.sweepDrop
  rw [if_pos ⟨hact, hexp⟩]
  exact ⟨rfl, rfl⟩

/-- Witness for C8: total_amount 1000, amount_per_claim 200, 3 claims made,
expiry at tick 10 swept at tick 11 from a creator balance of 0: the drop
expires and the creator is credited 1000 - 3 * 200 = 400. -/
theorem C8_expiry_sweep_refund_witness :
    ((Sweep.sweepDrop 11
      { drop :=
          { totalAmount := 1000, amountPerClaim := 200, totalClaimsAllowed := 5
            claimsMadeCount := 3, status := MoneyDrop.DropStatus.active
            expiryTimestamp := 10 }
        creatorBalance := 0 }).drop.status = MoneyDrop.DropStatus.expired ∧
    (Sweep.sweepDrop 11
      { drop :=
          { totalAmount := 1000, amountPerClaim := 200, totalClaimsAllowed := 5
            claimsMadeCount := 3, status := MoneyDrop.DropStatus.active
            expiryTimestamp := 10 }
        creatorBalance := 0 }).creatorBalance = 0 + (1000 - 3 * 200)) ∧
    (Sweep.sweepDrop 11
      { drop :=
          { totalAmount := 1000, amountPerClaim := 200, totalClaimsAllowed := 5
            claimsMadeCount := 3, status := MoneyDrop.DropStatus.active
            expiryTimestamp := 10 }
        creatorBalance := 0 }).creatorBalance = 400 :=
  ⟨C8_expiry_sweep_refund 11
      { drop :=
          { totalAmount := 1000, amountPerClaim := 200, totalClaimsAllowed := 5
            claimsMadeCount := 3, status := MoneyDrop.DropStatus.active
            expiryTimestamp := 10 }
        creatorBalance := 0 } rfl (by decide),
    by decide⟩

namespace Notif

/-- Configuration of the notification service (config.go): the Anchor
webhook shared secret and the exchange/routing-key pairs for the two
published events. -/
structure Config where
  anchorWebhookSecret : String
  customerVerifiedEx : String
  customerVerifiedRK : String
  customerVerificationRejectedEx : String
  customerVerificationRejectedRK : String

/-- domain.AnchorRelationshipData: the relationships.customer object of an
Anchor JSON:API webhook. -/
structure AnchorRelationshipData where
  id : String
  type : String
deriving DecidableEq, Repr

/-- domain.AnchorWebhookData: the data object of an Anchor webhook payload
(attributes are unused by the handlers and omitted). -/
structure AnchorWebhookData where
  id : String
  type : String
  customer : AnchorRelationshipData
deriving DecidableEq, Repr

/-- domain.AnchorWebhookPayload: the top-level incoming webhook. -/
structure AnchorWebhookPayload where
  data : AnchorWebhookData
deriving DecidableEq, Repr

/-- domain.User as the notification service reads it (id only). -/
structure NotifUser where
  id : Nat
  anchorCustomerId : String
  kycStatus : String
deriving DecidableEq, Repr

/-- Outcome of store.GetUserByAnchorID: the row, ErrUserNotFound, or a
database failure. -/
inductive RepoResult
  | found (u : NotifUser)
  | userNotFound
  | dbError
deriving DecidableEq, Repr

/-- The events the service publishes (domain.CustomerVerifiedEvent and
domain.CustomerVerificationRejectedEvent), already marshalled. -/
inductive OutEvent
  | customerVerified (userId : Nat) (anchorCustomerId : String)
  | customerVerificationRejected (userId : Nat) (anchorCustomerId : String)
      (reason : String)
deriving DecidableEq, Repr

/-- A publish attempted against the broker, with its exchange and routing
key: the only externally visible state change the service can make (its
Repository port is read-only). -/
structure PublishEffect where
  event : OutEvent
  exchange : String
  routingKey : String
deriving DecidableEq, Repr

/-- Environment of one webhook invocation: the HMAC-SHA1-base64 primitive
the crypto library computes, the JSON decoder for the raw body, the users
table the repository reads, whether the database is reachable, and whether
a broker publish succeeds. -/
structure Env where
  hmacSha1Base64 : String → String → String
  parsePayload : String → Option AnchorWebhookPayload
  users : List NotifUser
  dbOk : Bool
  publishOk : Bool

/-- Result of a handler: the Go error return, the publishes attempted, and
the users table afterwards (the service holds no write operation, so the
handlers return it untouched; it is threaded to make that visible). -/
structure HandlerResult where
  result : Except String Unit
  published : List PublishEffect
  users : List NotifUser

/-- store.GetUserByAnchorID: SELECT id FROM public.users WHERE
anchor_customer_id = the given id; pgx.ErrNoRows maps to ErrUserNotFound. -/
def getUserByAnchorID (env : Env) (anchorID : String) : RepoResult :=
  if env.dbOk then
    match env.users.find? (fun u => u.anchorCustomerId = anchorID) with
    | some u => RepoResult.found u
    | none => RepoResult.userNotFound
  else RepoResult.dbError

/-- verifySignature (interfaces.go lines 102-118): error when the secret is
unconfigured, else compute the HMAC-SHA1 of the payload under the secret,
base64-encode it and compare with the header value (constant-time in Go;
functionally equality). -/
def verifySignature (env : Env) (cfg : Config) (payload : String)
    (signatureHeader : String) : Except String Unit :=
  if cfg.anchorWebhookSecret = "" then
    Except.error "anchor webhook secret is not configured"
  else
    if signatureHeader = env.hmacSha1Base64 cfg.anchorWebhookSecret payload then
      Except.ok ()
    else Except.error "signatures do not match"

/-- handleCustomerIdentificationApproved (interfaces.go lines 121-155):
empty customer id errors; an unknown customer is acknowledged without
publishing; a repository failure errors; otherwise a CustomerVerifiedEvent
is published (marshalling of the fixed-shape event cannot fail and is
modelled as always succeeding). -/
def handleCustomerIdentificationApproved (env : Env) (cfg : Config)
    (webhook : AnchorWebhookPayload) : HandlerResult :=
  let anchorCustomerID := webhook.data.customer.id
  if anchorCustomerID = "" then
    { result := Except.error "missing anchor_customer_id in webhook payload"
      published := [], users := env.users }
  else
    match getUserByAnchorID env anchorCustomerID with
    | RepoResult.userNotFound =>
      { result := Except.ok (), published := [], users := env.users }
    | RepoResult.dbError =>
      { result := Except.error "failed to get user by anchor ID"
        published := [], users := env.users }
    | RepoResult.found user =>
      let eff : PublishEffect :=
        { event := OutEvent.customerVerified user.id anchorCustomerID
          exchange := cfg.customerVerifiedEx
          routingKey := cfg.customerVerifiedRK }
      if env.publishOk then
        { result := Except.ok (), published := [eff], users := env.users }
      else
        { result := Except.error "failed to publish CustomerVerifiedEvent"
          published := [eff], users := env.users }

/-- handleCustomerIdentificationRejected (interfaces.go lines 158-194):
empty customer id errors; any repository error is logged and acknowledged;
otherwise a CustomerVerificationRejectedEvent with the generic reason is
published.  No database write of any kind occurs. -/
def handleCustomerIdentificationRejected (env : Env) (cfg : Config)
    (webhook : AnchorWebhookPayload) : HandlerResult :=
  let anchorCustomerID := webhook.data.customer.id
  if anchorCustomerID = "" then
    { result := Except.error "missing anchor_customer_id in rejected webhook payload"
      published := [], users := env.users }
  else
    match getUserByAnchorID env anchorCustomerID with
    | RepoResult.userNotFound =>
      { result := Except.ok (), published := [], users := env.users }
    | RepoResult.dbError =>
      { result := Except.ok (), published := [], users := env.users }
    | RepoResult.found user =>
      let eff : PublishEffect :=
        { event := OutEvent.customerVerificationRejected user.id anchorCustomerID
            "KYC details could not be verified."
          exchange := cfg.customerVerificationRejectedEx
          routingKey := cfg.customerVerificationRejectedRK }
      if env.publishOk then
        { result := Except.ok (), published := [eff], users := env.users }
      else
        { result := Except.error "failed to publish CustomerVerificationRejectedEvent"
          published := [eff], users := env.users }

/-- processAnchorWebhook (interfaces.go lines 74-98): verify the signature
over the raw payload first, then unmarshal, then dispatch on the event
type; unhandled types are acknowledged with no effect. -/
def processAnchorWebhook (env : Env) (cfg : Config) (payload : String)
    (signature : String) : HandlerResult :=
  match verifySignature env cfg payload signature with
  | Except.error e =>
    { result := Except.error ("webhook signature verification failed: " ++ e)
      published := [], users := env.users }
  | Except.ok _ =>
    match env.parsePayload payload with
    | none =>
      { result := Except.error "failed to unmarshal webhook payload"
        published := [], users := env.users }
    | some webhook =>
      if webhook.data.type = "customer.identification.approved" then
        handleCustomerIdentificationApproved env cfg webhook
      else if webhook.data.type = "customer.identification.rejected" then
        handleCustomerIdentificationRejected env cfg webhook
      else
        { result := Except.ok (), published := [], users := env.users }

end Notif

/-- C4: When ProcessAnchorWebhook receives a payload whose signature does
not verify against the configured shared secret, it returns an error before
any event is published and produces no state change: no publish is
attempted and the users table (the service has no write operation) is
untouched. -/
theorem C4_invalid_signature_rejected_before_effects
    (env : Notif.Env) (cfg : Notif.Config) (payload signature e : String)
    (h : Notif.verifySignature env cfg payload signature = Except.error e) :
    Notif.processAnchorWebhook env cfg payload signature =
      { result := Except.error ("webhook signature verification failed: " ++ e)
        published := []
        users := env.users } := by
  unfold Notif.processAnchorWebhook
  rw [h]

/-- Witness for C4: a header value differing from the computed HMAC is
rejected with the signatures-do-not-match error, no publish and an
unchanged users table. -/
theorem C4_invalid_signature_rejected_before_effects_witness :
    Notif.verifySignature
        { hmacSha1Base64 := fun _ _ => "GOODSIG", parsePayload := fun _ => none
          users := [], dbOk := true, publishOk := true }
        { anchorWebhookSecret := "topsecret", customerVerifiedEx := "ex1"
          customerVerifiedRK := "rk1", customerVerificationRejectedEx := "ex2"
          customerVerificationRejectedRK := "rk2" }
        "raw-body" "BADSIG" = Except.error "signatures do not match" ∧
    Notif.processAnchorWebhook
        { hmacSha1Base64 := fun _ _ => "GOODSIG", parsePayload := fun _ => none
          users := [], dbOk := true, publishOk := true }
        { anchorWebhookSecret := "topsecret", customerVerifiedEx := "ex1"
          customerVerifiedRK := "rk1", customerVerificationRejectedEx := "ex2"
          customerVerificationRejectedRK := "rk2" }
        "raw-body" "BADSIG" =
      { result := Except.error
          ("webhook signature verification failed: " ++ "signatures do not match")
        published := []
        users := [] } :=
  ⟨rfl,
    C4_invalid_signature_rejected_before_effects
      { hmacSha1Base64 := fun _ _ => "GOODSIG", parsePayload := fun _ => none
        users := [], dbOk := true, publishOk := true }
      { anchorWebhookSecret := "topsecret", customerVerifiedEx := "ex1"
        customerVerifiedRK := "rk1", customerVerificationRejectedEx := "ex2"
        customerVerificationRejectedRK := "rk2" }
      "raw-body" "BADSIG" "signatures do not match" rfl⟩

/-- The user row, webhook, environment and configuration of the concrete
rejection scenario used to settle C6: a pending user known under the Anchor
customer id anc-1 receives a customer.identification.rejected webhook whose
signature verifies and whose publish succeeds. -/
def c6User : Notif.NotifUser :=
  { id := 1, anchorCustomerId := "anc-1", kycStatus := "pending" }

def c6Webhook : Notif.AnchorWebhookPayload :=
  { data :=
      { id := "evt-1", type := "customer.identification.rejected"
        customer := { id := "anc-1", type := "IndividualCustomer" } } }

def c6Env : Notif.Env :=
  { hmacSha1Base64 := fun _ _ => "SIG"
    parsePayload := fun _ => some c6Webhook
    users := [c6User], dbOk := true, publishOk := true }

def c6Cfg : Notif.Config :=
  { anchorWebhookSecret := "topsecret"
    customerVerifiedEx := "customer_events", customerVerifiedRK := "customer.verified"
    customerVerificationRejectedEx := "customer_events"
    customerVerificationRejectedRK := "customer.verification.rejected" }

/-- Counterexample to C6: a permanent rejection webhook for a pending user
is processed successfully, yet the users table after the handler still
holds the user with kyc_status pending — not the claimed terminal value
rejected.  No code in the repository writes kyc_status. -/
theorem C6_rejection_leaves_kyc_pending_cex :
    (Notif.processAnchorWebhook c6Env c6Cfg "raw-body" "SIG").result = Except.ok () ∧
    (Notif.processAnchorWebhook c6Env c6Cfg "raw-body" "SIG").users = [c6User] ∧
    c6User.kycStatus = "pending" ∧ ¬ c6User.kycStatus = "rejected" := by
  refine ⟨rfl, rfl, rfl, ?_⟩
  intro h
  simp [c6User] at h

/-- C6 amended: a permanent rejection makes the webhook handler publish
only customer.verification.rejected events and never customer.verified, so
the provisioning stage (triggered solely by customer.verified) does not run
for that user; but the handler performs no database write, so the user's
kyc_status is left as it was (pending) rather than transitioning to
rejected. -/
theorem C6_rejected_handler_publishes_event_only
    (env : Notif.Env) (cfg : Notif.Config) (webhook : Notif.AnchorWebhookPayload) :
    (Notif.handleCustomerIdentificationRejected env cfg webhook).users = env.users ∧
    ∀ eff ∈ (Notif.handleCustomerIdentificationRejected env cfg webhook).published,
      ∃ uid aid r,
        eff.event = Notif.OutEvent.customerVerificationRejected uid aid r := by
  unfold Notif.handleCustomerIdentificationRejected
  by_cases hid : webhook.data.customer.id = ""
  · simp [hid]
  · cases hg : Notif.getUserByAnchorID env webhook.data.customer.id with
    | userNotFound => simp [hid, hg]
    | dbError => simp [hid, hg]
    | found user =>
      by_cases hp : env.publishOk
      · simp [hid, hg, hp]
      · simp [hid, hg, hp]

namespace Customer

/-- domain.KYCDetails of the customer service. -/
structure KYCDetails where
  fullName : String
  bvn : String
  dateOfBirth : String
deriving DecidableEq, Repr

/-- domain.KYBDetails of the customer service. -/
structure KYBDetails where
  businessName : String
  rcNumber : String
deriving DecidableEq, Repr

/-- domain.UserCreatedEvent consumed from the user.created queue, already
unmarshalled. -/
structure UserCreatedEvent where
  userId : Nat
  clerkId : String
  accountType : String
  kycDetails : Option KYCDetails
  kybDetails : Option KYBDetails
deriving DecidableEq, Repr

/-- Row of public.users as the customer service touches it: the id and the
anchor_customer_id column; none models a row whose external customer
reference has not been stored yet. -/
structure CustUser where
  id : Nat
  anchorCustomerId : Option String
deriving DecidableEq, Repr

/-- The local users table read and written by the customer service. -/
structure CustState where
  users : List CustUser
deriving DecidableEq, Repr

/-- Remote calls HandleUserCreatedEvent makes, in order: the Anchor
create-individual-customer call, the local anchor_customer_id UPDATE, and
the KYC verification trigger. -/
inductive CustEffect
  | createIndividualCustomer (userId : Nat)
  | updateUserWithAnchorID (userId : Nat) (anchorCustomerId : String)
  | triggerIndividualVerification (anchorCustomerId : String)
deriving DecidableEq, Repr

/-- Environment of one invocation: the outcome of the Anchor
CreateIndividualCustomer call (the new remote customer id or the typed
failure) and whether TriggerIndividualVerification succeeds. -/
structure CustEnv where
  createIndividualCustomerResult : Except String String
  triggerVerificationOk : Bool
deriving Repr

/-- store.UpdateUserWithAnchorID (repository.go lines 36-52): UPDATE
public.users SET anchor_customer_id WHERE id; errors unless exactly one row
is affected (ids are the primary key, so 0 or 1). -/
def updateUserWithAnchorID (s : CustState) (userId : Nat)
    (anchorCustomerID : String) : Except String CustState :=
  if (s.users.filter (fun u => u.id = userId)).length = 1 then
    Except.ok
      { users := s.users.map (fun u =>
          if u.id = userId then { u with anchorCustomerId := some anchorCustomerID }
          else u) }
  else Except.error "expected 1 row to be affected"

/-- Outcome of HandleUserCreatedEvent: the handler's error return, the
users table afterwards, and the remote/database calls attempted. -/
structure CustResult where
  result : Except String Unit
  state : CustState
  effects : List CustEffect
deriving Repr

/-- HandleUserCreatedEvent (service.go lines 40-93): for a personal account
it requires KYCDetails, creates the Anchor individual customer, stores the
returned id via UpdateUserWithAnchorID, then triggers KYC verification
(whose failure is only logged); for a merchant account it logs and returns
success without doing anything; an unknown account type errors.  No read of
any previously stored anchor_customer_id occurs anywhere. -/
def handleUserCreatedEvent (env : CustEnv) (s : CustState)
    (event : UserCreatedEvent) : CustResult :=
  if event.accountType = "personal" then
    match event.kycDetails with
    | none =>
      { result := Except.error "KYCDetails are required for personal account type"
        state := s, effects := [] }
    | some _ =>
      match env.createIndividualCustomerResult with
      | Except.error e =>
        { result := Except.error ("failed to create individual customer in anchor: " ++ e)
          state := s
          effects := [CustEffect.createIndividualCustomer event.userId] }
      | Except.ok anchorCustomerID =>
        match updateUserWithAnchorID s event.userId anchorCustomerID with
        | Except.error e =>
          { result := Except.error
              ("CRITICAL: failed to update user with anchor id: " ++ e)
            state := s
            effects :=
              [CustEffect.createIndividualCustomer event.userId,
                CustEffect.updateUserWithAnchorID event.userId anchorCustomerID] }
        | Except.ok s2 =>
          { result := Except.ok ()
            state := s2
            effects :=
              [CustEffect.createIndividualCustomer event.userId,
                CustEffect.updateUserWithAnchorID event.userId anchorCustomerID,
                CustEffect.triggerIndividualVerification anchorCustomerID] }
  else if event.accountType = "merchant" then
    { result := Except.ok (), state := s, effects := [] }
  else
    { result := Except.error ("unknown account type: " ++ event.accountType)
      state := s, effects := [] }

end Customer

/-- Concrete identity-stage scenario for C5: the local user already stores
the external customer reference anc-old, yet a user.created event for them
is redelivered with fresh KYC details, and Anchor returns the new remote
customer anc-new. -/
def c5State : Customer.CustState :=
  { users := [{ id := 1, anchorCustomerId := some "anc-old" }] }

def c5Event : Customer.UserCreatedEvent :=
  { userId := 1, clerkId := "clerk-1", accountType := "personal"
    kycDetails := some { fullName := "Ada O", bvn := "12345678901"
                         dateOfBirth := "1990-01-01" }
    kybDetails := none }

def c5Env : Customer.CustEnv :=
  { createIndividualCustomerResult := Except.ok "anc-new"
    triggerVerificationOk := true }

/-- Counterexample to C5: with a stored external customer reference already
present, HandleUserCreatedEvent still performs the Anchor create-customer
call (the effect trace contains it) and overwrites the stored reference
with the id of the second remote customer. -/
theorem C5_stored_reference_not_skipped_cex :
    Customer.CustEffect.createIndividualCustomer 1 ∈
      (Customer.handleUserCreatedEvent c5Env c5State c5Event).effects ∧
    (Customer.handleUserCreatedEvent c5Env c5State c5Event).state =
      { users := [{ id := 1, anchorCustomerId := some "anc-new" }] } := by
  constructor
  · decide
  · rfl

/-- C5 amended: on a user.created event for a personal account with KYC
details, HandleUserCreatedEvent calls the BaaS create-customer operation
unconditionally — it never reads a stored external customer reference and
performs no idempotency check, so redelivery creates a second remote
customer. -/
theorem C5_personal_always_creates_remote_customer
    (env : Customer.CustEnv) (s : Customer.CustState)
    (event : Customer.UserCreatedEvent)
    (hpers : event.accountType = "personal")
    (hkyc : event.kycDetails.isSome = true) :
    Customer.CustEffect.createIndividualCustomer event.userId ∈
      (Customer.handleUserCreatedEvent env s event).effects := by
  unfold Customer.handleUserCreatedEvent
  rw [hpers]
  match hk : event.kycDetails with
  | none => rw [hk] at hkyc; cases hkyc
  | some k =>
    match hc : env.createIndividualCustomerResult with
    | Except.error e => simp [hk, hc]
    | Except.ok anchorCustomerID =>
      match hu : Customer.updateUserWithAnchorID s event.userId anchorCustomerID with
      | Except.error e => simp [hk, hc, hu]
      | Except.ok s2 => simp [hk, hc, hu]

/-- Witness for C5 amended: the c5 scenario satisfies the hypotheses and
the Anchor call appears in the trace. -/
theorem C5_personal_always_creates_remote_customer_witness :
    c5Event.accountType = "personal" ∧ c5Event.kycDetails.isSome = true ∧
    Customer.CustEffect.createIndividualCustomer c5Event.userId ∈
      (Customer.handleUserCreatedEvent c5Env c5State c5Event).effects :=
  ⟨rfl, rfl, C5_personal_always_creates_remote_customer c5Env c5State c5Event rfl rfl⟩

/-- C10: For every user.created event with account_type merchant,
HandleUserCreatedEvent returns success (so the message is acknowledged)
while making no BaaS call, attempting no database write, and leaving the
local users table exactly as it was. -/
theorem C10_merchant_event_acknowledged_without_effects
    (env : Customer.CustEnv) (s : Customer.CustState)
    (event : Customer.UserCreatedEvent)
    (hmerch : event.accountType = "merchant") :
    Customer.handleUserCreatedEvent env s event =
      { result := Except.ok (), state := s, effects := [] } := by
  unfold Customer.handleUserCreatedEvent
  rw [hmerch]
  rfl

/-- Witness for C10: a concrete merchant user.created event is acknowledged
with an untouched state and an empty effect trace. -/
theorem C10_merchant_event_acknowledged_without_effects_witness :
    ({ userId := 9, clerkId := "clerk-9", accountType := "merchant"
       kycDetails := none
       kybDetails := some { businessName := "Acme Ltd", rcNumber := "RC123" }
       : Customer.UserCreatedEvent }).accountType = "merchant" ∧
    Customer.handleUserCreatedEvent
        { createIndividualCustomerResult := Except.error "boom"
          triggerVerificationOk := false }
        { users := [{ id := 9, anchorCustomerId := none }] }
        { userId := 9, clerkId := "clerk-9", accountType := "merchant"
          kycDetails := none
          kybDetails := some { businessName := "Acme Ltd", rcNumber := "RC123" } } =
      { result := Except.ok ()
        state := { users := [{ id := 9, anchorCustomerId := none }] }
        effects := [] } :=
  ⟨rfl,
    C10_merchant_event_acknowledged_without_effects
      { createIndividualCustomerResult := Except.error "boom"
        triggerVerificationOk := false }
      { users := [{ id := 9, anchorCustomerId := none }] }
      { userId := 9, clerkId := "clerk-9", accountType := "merchant"
        kycDetails := none
        kybDetails := some { businessName := "Acme Ltd", rcNumber := "RC123" } }
      rfl⟩

namespace Account

/-- domain.User as the account service reads it: id and account_type. -/
structure AccUser where
  id : Nat
  accountType : String
deriving DecidableEq, Repr

/-- Row of public.accounts as the account service writes it. -/
structure Acct where
  userId : Nat
  anchorAccountId : String
  accountPurpose : String
  balance : Int
  status : String
deriving DecidableEq, Repr

/-- Local state of the account service: the users and accounts tables. -/
structure AccState where
  users : List AccUser
  accounts : List Acct
deriving DecidableEq, Repr

/-- domain.CustomerVerifiedEvent consumed from the customer.verified queue. -/
structure CustomerVerifiedEvent where
  userId : Nat
  anchorCustomerId : String
deriving DecidableEq, Repr

/-- Calls HandleCustomerVerifiedEvent makes: the Anchor
CreateDepositAccount call and the local accounts INSERT. -/
inductive AccEffect
  | createDepositAccount (anchorCustomerId customerType productName : String)
  | insertAccount (userId : Nat) (anchorAccountId accountPurpose : String)
deriving DecidableEq, Repr

/-- store.GetUserByID (repository.go lines 64-78): SELECT id, account_type
FROM public.users WHERE id; ErrUserNotFound when no row matches. -/
def getUserByID (s : AccState) (userId : Nat) : Option AccUser :=
  s.users.find? (fun u => u.id = userId)

/-- store.CreateAccount (repository.go lines 40-60): INSERT INTO
public.accounts; the UNIQUE constraint on anchor_account_id
(0000_initial_schema.sql line 83) makes the insert fail when that id is
already present — there is no uniqueness constraint on
(user_id, account_purpose). -/
def createAccount (s : AccState) (a : Acct) : Except String AccState :=
  if s.accounts.any (fun b => b.anchorAccountId = a.anchorAccountId) then
    Except.error "failed to insert account into database"
  else Except.ok { s with accounts := s.accounts ++ [a] }

/-- Outcome of HandleCustomerVerifiedEvent: error return, resulting local
state, and the calls attempted. -/
structure AccResult where
  result : Except String Unit
  state : AccState
  effects : List AccEffect
deriving Repr

/-- Tail of HandleCustomerVerifiedEvent (part_006 lines 68-95) after the
product and customer types are chosen: call Anchor CreateDepositAccount
(its outcome supplied as anchorResult), then insert the main_wallet account
row for the user. -/
def provisionAccount (anchorResult : Except String String) (s : AccState)
    (event : CustomerVerifiedEvent) (user : AccUser)
    (customerType productName : String) : AccResult :=
  match anchorResult with
  | Except.error e =>
    { result := Except.error ("failed to create deposit account in anchor: " ++ e)
      state := s
      effects :=
        [AccEffect.createDepositAccount event.anchorCustomerId customerType productName] }
  | Except.ok anchorAccountID =>
    let newAccount : Acct :=
      { userId := user.id, anchorAccountId := anchorAccountID
        accountPurpose := "main_wallet", balance := 0, status := "active" }
    match createAccount s newAccount with
    | Except.error e =>
      { result := Except.error ("CRITICAL: failed to save created account: " ++ e)
        state := s
        effects :=
          [AccEffect.createDepositAccount event.anchorCustomerId customerType productName,
            AccEffect.insertAccount user.id anchorAccountID "main_wallet"] }
    | Except.ok s2 =>
      { result := Except.ok ()
        state := s2
        effects :=
          [AccEffect.createDepositAccount event.anchorCustomerId customerType productName,
            AccEffect.insertAccount user.id anchorAccountID "main_wallet"] }

/-- HandleCustomerVerifiedEvent (part_006 lines 40-96): fetch the user,
choose SAVINGS/IndividualCustomer for personal and
CURRENT/BusinessCustomer for merchant, then create the Anchor deposit
account and persist the local row.  No check whether the user already has
a main-wallet Account appears anywhere. -/
def handleCustomerVerifiedEvent (anchorResult : Except String String)
    (s : AccState) (event : CustomerVerifiedEvent) : AccResult :=
  match getUserByID s event.userId with
  | none =>
    { result := Except.error "failed to get user by ID", state := s, effects := [] }
  | some user =>
    if user.accountType = "personal" then
      provisionAccount anchorResult s event user "IndividualCustomer" "SAVINGS"
    else if user.accountType = "merchant" then
      provisionAccount anchorResult s event user "BusinessCustomer" "CURRENT"
    else
      { result := Except.error ("unknown account type " ++ user.accountType)
        state := s, effects := [] }

/-- Number of main-wallet Account rows a user holds. -/
def mainWalletCount (s : AccState) (userId : Nat) : Nat :=
  (s.accounts.filter
    (fun a => a.userId = userId ∧ a.accountPurpose = "main_wallet")).length

end Account

/-- Concrete provisioning scenario for C3: a verified personal user with no
account yet; the customer.verified event is delivered twice and Anchor
returns a fresh deposit-account id on each call. -/
def c3State : Account.AccState :=
  { users := [{ id := 1, accountType := "personal" }], accounts := [] }

def c3Event : Account.CustomerVerifiedEvent :=
  { userId := 1, anchorCustomerId := "anc-1" }

/-- Counterexample to C3: after the second delivery of the same
customer.verified event, the user holds two main-wallet Accounts, and the
second run both calls the BaaS again and inserts again — the handler has no
idempotency check. -/
theorem C3_redelivery_not_idempotent_cex :
    Account.mainWalletCount
        (Account.handleCustomerVerifiedEvent (Except.ok "dep-2")
          (Account.handleCustomerVerifiedEvent (Except.ok "dep-1") c3State c3Event).state
          c3Event).state 1 = 2 ∧
    Account.AccEffect.createDepositAccount "anc-1" "IndividualCustomer" "SAVINGS" ∈
      (Account.handleCustomerVerifiedEvent (Except.ok "dep-2")
        (Account.handleCustomerVerifiedEvent (Except.ok "dep-1") c3State c3Event).state
        c3Event).effects ∧
    Account.AccEffect.insertAccount 1 "dep-2" "main_wallet" ∈
      (Account.handleCustomerVerifiedEvent (Except.ok "dep-2")
        (Account.handleCustomerVerifiedEvent (Except.ok "dep-1") c3State c3Event).state
        c3Event).effects := by
  refine ⟨by decide, by decide, by decide⟩

/-- C3 amended: re-delivering a customer.verified event repeats the whole
provisioning: whenever the user exists with a personal account type
(whether or not a main-wallet Account already exists for them) and Anchor
returns a deposit-account id not yet stored, the handler calls the BaaS
again, inserts again, succeeds, and the user's number of main-wallet
Accounts grows by one — so a redelivery yields two Accounts, not one. -/
theorem C3_provisioning_repeats_on_redelivery
    (s : Account.AccState) (event : Account.CustomerVerifiedEvent)
    (freshId : String) (user : Account.AccUser)
    (hu : Account.getUserByID s event.userId = some user)
    (hpers : user.accountType = "personal")
    (hfresh : s.accounts.any (fun b => b.anchorAccountId = freshId) = false) :
    (Account.handleCustomerVerifiedEvent (Except.ok freshId) s event).result =
        Except.ok () ∧
    Account.mainWalletCount
        (Account.handleCustomerVerifiedEvent (Except.ok freshId) s event).state
        user.id =
      Account.mainWalletCount s user.id + 1 ∧
    Account.AccEffect.createDepositAccount event.anchorCustomerId
        "IndividualCustomer" "SAVINGS" ∈
      (Account.handleCustomerVerifiedEvent (Except.ok freshId) s event).effects := by
  unfold Account.handleCustomerVerifiedEvent
  rw [hu]
  simp only [hpers, if_pos]
  unfold Account.provisionAccount
  unfold Account.createAccount
  simp only [hfresh]
  refine ⟨rfl, ?_, by simp⟩
  unfold Account.mainWalletCount
  simp [List.filter_append]

/-- Witness for C3 amended: the second delivery, starting from the state
the first delivery produced (one main-wallet Account already stored),
satisfies the hypotheses and yields a second main-wallet Account. -/
theorem C3_provisioning_repeats_on_redelivery_witness :
    (Account.getUserByID
        (Account.handleCustomerVerifiedEvent (Except.ok "dep-1") c3State c3Event).state
        c3Event.userId = some { id := 1, accountType := "personal" } ∧
      ({ id := 1, accountType := "personal" : Account.AccUser }).accountType =
        "personal" ∧
      ((Account.handleCustomerVerifiedEvent (Except.ok "dep-1") c3State
          c3Event).state.accounts.any
        (fun b => b.anchorAccountId = "dep-2") = false)) ∧
    ((Account.handleCustomerVerifiedEvent (Except.ok "dep-2")
        (Account.handleCustomerVerifiedEvent (Except.ok "dep-1") c3State c3Event).state
        c3Event).result = Except.ok () ∧
      Account.mainWalletCount
          (Account.handleCustomerVerifiedEvent (Except.ok "dep-2")
            (Account.handleCustomerVerifiedEvent (Except.ok "dep-1") c3State
              c3Event).state c3Event).state 1 =
        Account.mainWalletCount
          (Account.handleCustomerVerifiedEvent (Except.ok "dep-1") c3State
            c3Event).state 1 + 1 ∧
      Account.AccEffect.createDepositAccount c3Event.anchorCustomerId
          "IndividualCustomer" "SAVINGS" ∈
        (Account.handleCustomerVerifiedEvent (Except.ok "dep-2")
          (Account.handleCustomerVerifiedEvent (Except.ok "dep-1") c3State
            c3Event).state c3Event).effects) :=
  ⟨⟨by decide, rfl, by decide⟩,
    C3_provisioning_repeats_on_redelivery
      (Account.handleCustomerVerifiedEvent (Except.ok "dep-1") c3State c3Event).state
      c3Event "dep-2" { id := 1, accountType := "personal" }
      (by decide) rfl (by decide)⟩

namespace Auth

/-- domain.KYCDetails of the auth service. -/
structure KYCDetails where
  fullName : String
  bvn : String
  dateOfBirth : String
deriving DecidableEq, Repr

/-- domain.KYBDetails of the auth service. -/
structure KYBDetails where
  businessName : String
  rcNumber : String
deriving DecidableEq, Repr

/-- domain.OnboardingRequest: the POST /onboarding request body. -/
structure OnboardingRequest where
  username : String
  accountType : String
  kycDetails : Option KYCDetails
  kybDetails : Option KYBDetails
deriving DecidableEq, Repr

/-- domain.User of the auth service as CreateUser persists it. -/
structure AuthUser where
  id : Nat
  clerkId : String
  username : String
  accountType : String
  allowSending : Bool
deriving DecidableEq, Repr

/-- domain.UserCreatedEvent published after user creation. -/
structure UserCreatedEvent where
  userId : Nat
  clerkId : String
  accountType : String
  kycDetails : Option KYCDetails
  kybDetails : Option KYBDetails
deriving DecidableEq, Repr

/-- Local state of the auth service: the users table. -/
structure AuthState where
  users : List AuthUser
deriving DecidableEq, Repr

/-- A publish attempted by the auth service. -/
structure AuthPublish where
  event : UserCreatedEvent
  exchange : String
  routingKey : String
deriving DecidableEq, Repr

/-- Environment of one OnboardUser call: the UUID generated for the new
user, whether the INSERT commits (CreateUser), the user.created exchange
and routing key from config, and whether the broker publish succeeds
(marshalling of the fixed-shape event cannot fail and is modelled as
always succeeding). -/
structure AuthEnv where
  newUserId : Nat
  createUserOk : Bool
  userCreatedEx : String
  userCreatedRK : String
  publishOk : Bool
deriving DecidableEq, Repr

/-- Outcome of OnboardUser: the returned (user, error) pair, the users
table afterwards, and the publishes attempted. -/
structure AuthResult where
  result : Except String AuthUser
  state : AuthState
  published : List AuthPublish
deriving Repr

/-- OnboardUser (part_003 lines 45-95): build the user (merchants get
allow_sending false), persist it via CreateUser, then publish the
user.created event; a publish failure is logged and the already-committed
user is still returned with a nil error. -/
def onboardUser (env : AuthEnv) (s : AuthState) (clerkID : String)
    (req : OnboardingRequest) : AuthResult :=
  let newUser : AuthUser :=
    { id := env.newUserId, clerkId := clerkID, username := req.username
      accountType := req.accountType
      allowSending := if req.accountType = "merchant" then false else true }
  if env.createUserOk then
    let s2 : AuthState := { users := s.users ++ [newUser] }
    let event : UserCreatedEvent :=
      { userId := newUser.id, clerkId := newUser.clerkId
        accountType := newUser.accountType
        kycDetails := req.kycDetails, kybDetails := req.kybDetails }
    let eff : AuthPublish :=
      { event := event, exchange := env.userCreatedEx
        routingKey := env.userCreatedRK }
    { result := Except.ok newUser, state := s2, published := [eff] }
  else
    { result := Except.error "failed to create user in repository"
      state := s, published := [] }

end Auth

/-- C9: If the broker publish of user.created fails after the user row has
committed, OnboardUser does not roll the user back: the publish was
attempted, the new user stays in the users table, and the call still
returns the created user with a nil error.  The publish outcome does not
appear in the result at all: the code only logs it. -/
theorem C9_publish_failure_does_not_roll_back
    (env : Auth.AuthEnv) (s : Auth.AuthState) (clerkID : String)
    (req : Auth.OnboardingRequest)
    (hcreate : env.createUserOk = true)
    (hpub : env.publishOk = false) :
    (Auth.onboardUser env s clerkID req).result =
      Except.ok
        { id := env.newUserId, clerkId := clerkID, username := req.username
          accountType := req.accountType
          allowSending := if req.accountType = "merchant" then false else true } ∧
    (Auth.onboardUser env s clerkID req).state.users =
      s.users ++
        [{ id := env.newUserId, clerkId := clerkID, username := req.username
           accountType := req.accountType
           allowSending := if req.accountType = "merchant" then false else true }] ∧
    (Auth.onboardUser env s clerkID req).published.length = 1 := by
  unfold Auth.onboardUser
  rw [hcreate]
  exact ⟨rfl, rfl, rfl⟩

/-- Witness for C9: a concrete onboarding with a failing publish still
returns the committed user. -/
theorem C9_publish_failure_does_not_roll_back_witness :
    ({ newUserId := 42, createUserOk := true, userCreatedEx := "user_events"
       userCreatedRK := "user.created", publishOk := false
       : Auth.AuthEnv }).createUserOk = true ∧
    ({ newUserId := 42, createUserOk := true, userCreatedEx := "user_events"
       userCreatedRK := "user.created", publishOk := false
       : Auth.AuthEnv }).publishOk = false ∧
    (Auth.onboardUser
        { newUserId := 42, createUserOk := true, userCreatedEx := "user_events"
          userCreatedRK := "user.created", publishOk := false }
        { users := [] } "clerk-42"
        { username := "ada", accountType := "personal"
          kycDetails := none, kybDetails := none }).result =
      Except.ok
        { id := 42, clerkId := "clerk-42", username := "ada"
          accountType := "personal"
          allowSending := if ("personal" : String) = "merchant" then false else true } :=
  ⟨rfl, rfl,
    (C9_publish_failure_does_not_roll_back
      { newUserId := 42, createUserOk := true, userCreatedEx := "user_events"
        userCreatedRK := "user.created", publishOk := false }
      { users := [] } "clerk-42"
      { username := "ada", accountType := "personal"
        kycDetails := none, kybDetails := none } rfl rfl).1⟩

namespace Rabbit

/-- The acknowledgement a consumer sends for one delivery: Ack, Nack with
requeue true, or Nack with requeue false. -/
inductive AckAction
  | ack
  | nackRequeue
  | nackNoRequeue
deriving DecidableEq, Repr

/-- The customer-service consumer (consumer.go lines 124-132): on handler
error it calls msg.Nack(false, true) — requeue true — every time; on
success msg.Ack(false). -/
def customerConsumerAction (handlerResult : Except String Unit) : AckAction :=
  match handlerResult with
  | Except.ok _ => AckAction.ack
  | Except.error _ => AckAction.nackRequeue

/-- The account-service consumer (the rabbitmq consumer packaged with the
anchor client, lines 228-236): on handler error it calls d.Nack(false,
false) — requeue false — and on success d.Ack(false). -/
def accountConsumerAction (handlerResult : Except String Unit) : AckAction :=
  match handlerResult with
  | Except.ok _ => AckAction.ack
  | Except.error _ => AckAction.nackNoRequeue

/-- Neither consumer's QueueDeclare passes any arguments (both declare the
queue with nil args), so no dead-letter exchange is attached to either
queue. -/
def deadLetterConfigured : Bool := false

/-- Broker state for one queue: pending deliveries, messages routed to a
dead-letter destination, and acknowledged messages. -/
structure QueueState where
  queue : List Nat
  deadLetter : List Nat
  acked : List Nat
deriving DecidableEq, Repr

/-- AMQP semantics of one delivery acknowledgement: Ack removes the
message; Nack with requeue true returns it to the queue; Nack with requeue
false routes it to the dead-letter exchange when one is configured and
discards it otherwise. -/
def applyAction (dlx : Bool) (m : Nat) (a : AckAction) (q : QueueState) :
    QueueState :=
  match a with
  | AckAction.ack => { q with acked := q.acked ++ [m] }
  | AckAction.nackRequeue => { q with queue := q.queue ++ [m] }
  | AckAction.nackNoRequeue =>
    if dlx then { q with deadLetter := q.deadLetter ++ [m] } else q

/-- One iteration of a consumer's delivery loop: take the next pending
message, run the handler, acknowledge per the consumer's policy. -/
def consumeStep (action : Except String Unit → AckAction) (dlx : Bool)
    (handler : Nat → Except String Unit) (q : QueueState) : QueueState :=
  match q.queue with
  | [] => q
  | m :: rest =>
    applyAction dlx m (action (handler m)) { q with queue := rest }

/-- n iterations of the delivery loop. -/
def consumeSteps (action : Except String Unit → AckAction) (dlx : Bool)
    (handler : Nat → Except String Unit) (q : QueueState) : Nat → QueueState
  | 0 => q
  | n + 1 => consumeSteps action dlx handler (consumeStep action dlx handler q) n

/-- A handler that fails on every delivery, standing for a message whose
processing keeps failing. -/
def alwaysFailingHandler : Nat → Except String Unit :=
  fun _ => Except.error "handler failure"

end Rabbit

/-- Counterexample to C7: a single message whose handler always fails,
consumed by the customer-service consumer (requeue true, no dead-letter
exchange configured): after 1, and still after 5, loop iterations the
message sits in the queue and the dead-letter destination is empty —
there is no requeue-once bound and no dead-letter routing.  The
account-service consumer instead discards the message on its first
failure: it leaves the queue without ever reaching a dead-letter
destination. -/
theorem C7_no_bounded_retry_no_deadletter_cex :
    (Rabbit.consumeSteps Rabbit.customerConsumerAction
        Rabbit.deadLetterConfigured Rabbit.alwaysFailingHandler
        { queue := [99], deadLetter := [], acked := [] } 1 =
      { queue := [99], deadLetter := [], acked := [] } ∧
      Rabbit.consumeSteps Rabbit.customerConsumerAction
        Rabbit.deadLetterConfigured Rabbit.alwaysFailingHandler
        { queue := [99], deadLetter := [], acked := [] } 5 =
      { queue := [99], deadLetter := [], acked := [] }) ∧
    Rabbit.consumeSteps Rabbit.accountConsumerAction
        Rabbit.deadLetterConfigured Rabbit.alwaysFailingHandler
        { queue := [99], deadLetter := [], acked := [] } 1 =
      { queue := [], deadLetter := [], acked := [] } := by
  refine ⟨⟨by decide, by decide⟩, by decide⟩

/-- C7 amended: on handler failure the customer-service consumer nacks with
requeue true every time, so a failing message is redelivered indefinitely —
after any number of loop iterations it is still queued and the dead-letter
destination stays empty; the account-service consumer nacks with requeue
false and, with no dead-letter exchange configured on its queue, the
message is discarded rather than dead-lettered.  Successful handling is
acknowledged by both. -/
theorem C7_requeue_unbounded_and_drop (n : Nat) :
    (Rabbit.consumeSteps Rabbit.customerConsumerAction
        Rabbit.deadLetterConfigured Rabbit.alwaysFailingHandler
        { queue := [99], deadLetter := [], acked := [] } n =
      { queue := [99], deadLetter := [], acked := [] }) ∧
    (Rabbit.consumeSteps Rabbit.accountConsumerAction
        Rabbit.deadLetterConfigured Rabbit.alwaysFailingHandler
        { queue := [99], deadLetter := [], acked := [] } (n + 1) =
      { queue := [], deadLetter := [], acked := [] }) ∧
    Rabbit.customerConsumerAction (Except.ok ()) = Rabbit.AckAction.ack ∧
    Rabbit.accountConsumerAction (Except.ok ()) = Rabbit.AckAction.ack := by
  refine ⟨?_, ?_, rfl, rfl⟩
  · induction n with
    | zero => rfl
    | succ k ih => exact ih
  · have hstep : Rabbit.consumeStep Rabbit.accountConsumerAction
        Rabbit.deadLetterConfigured Rabbit.alwaysFailingHandler
        { queue := [99], deadLetter := [], acked := [] } =
      { queue := [], deadLetter := [], acked := [] } := by decide
    show Rabbit.consumeSteps Rabbit.accountConsumerAction
        Rabbit.deadLetterConfigured Rabbit.alwaysFailingHandler
        (Rabbit.consumeStep Rabbit.accountConsumerAction
          Rabbit.deadLetterConfigured Rabbit.alwaysFailingHandler
          { queue := [99], deadLetter := [], acked := [] }) n =
      { queue := [], deadLetter := [], acked := [] }
    rw [hstep]
    induction n with
    | zero => rfl
    | succ k ih => exact ih
